import Mathlib

/-
Verification of the quad-to-NURBS patch construction from
src/nodes/surface/quads_to_nurbs.py (class SvExQuadsToNurbsNode).

The geometric core is embedded shallowly:
  * 3D vectors (mathutils.Vector) become `Vec3` over ℚ (exact field
    arithmetic standing in for the float arithmetic of the source);
  * `make_surface` is translated statement by statement, with the
    fixed-size per-corner arrays represented as functions `Fin 4 → _`;
  * the Python dict of edge weights becomes a function `ℕ × ℕ → Option ℚ`,
    and the KeyError raised on a missing key becomes `Option` propagation;
  * the per-batch face loop of `process` (the part downstream of the
    mesh/bmesh collaborators) becomes `process_faces`, which consumes the
    already-zipped per-face parameter tuples exactly as the source's
    `zip(faces, degree_u, degree_v, face_weights)` loop does.

The NURBS surface object and knot vectors produced by the geomdl
collaborator are outside every claim and are not modelled; the patch
descriptor keeps the control points, weights and degrees.
-/

namespace QuadsToNurbs

/-- Exact 3-component vector, the embedding of mathutils.Vector. -/
structure Vec3 where
  x : ℚ
  y : ℚ
  z : ℚ
deriving DecidableEq

instance : Add Vec3 := ⟨fun a b => ⟨a.x + b.x, a.y + b.y, a.z + b.z⟩⟩

instance : Sub Vec3 := ⟨fun a b => ⟨a.x - b.x, a.y - b.y, a.z - b.z⟩⟩

instance : SMul ℚ Vec3 := ⟨fun c a => ⟨c * a.x, c * a.y, c * a.z⟩⟩

@[simp] theorem Vec3.add_mk (a b : Vec3) :
    a + b = ⟨a.x + b.x, a.y + b.y, a.z + b.z⟩ := rfl

@[simp] theorem Vec3.sub_mk (a b : Vec3) :
    a - b = ⟨a.x - b.x, a.y - b.y, a.z - b.z⟩ := rfl

@[simp] theorem Vec3.smul_mk (c : ℚ) (a : Vec3) :
    c • a = ⟨c * a.x, c * a.y, c * a.z⟩ := rfl

/-- Euclidean dot product of two vectors. -/
def dot (a b : Vec3) : ℚ := a.x * b.x + a.y * b.y + a.z * b.z

/-- Embedding of sverchok.utils.geom.PlaneEquation: the plane of all
points p with dot normal p + d = 0. -/
structure PlaneEquation where
  normal : Vec3
  d : ℚ
deriving DecidableEq

/-- Plane through a given point with a given normal (the constructor
used at line 192 of the source to build the per-vertex tangent planes). -/
def PlaneEquation.from_normal_and_point (n p : Vec3) : PlaneEquation :=
  ⟨n, -(dot n p)⟩

/-- Modelled from the spec: the plane/projection collaborator
(sverchok.utils.geom.PlaneEquation.projection_of_point, whose code is not
part of this repository) maps an arbitrary point to the nearest point on
the plane, an orthogonal projection along the plane's normal. -/
def PlaneEquation.projection_of_point (pl : PlaneEquation) (p : Vec3) : Vec3 :=
  p - ((dot pl.normal p + pl.d) / dot pl.normal pl.normal) • pl.normal

/-- Helper assembling a per-corner array from four values. -/
def quad4 {α : Type} (a b c d : α) : Fin 4 → α := fun i =>
  match i with
  | ⟨0, _⟩ => a
  | ⟨1, _⟩ => b
  | ⟨2, _⟩ => c
  | ⟨3, _⟩ => d

/-- Inner helper `mk_edge_point` of make_surface:
(vertices[j] - vertices[i]) * tangent_weights[i] + vertices[i], where
`tw` is the already 1/3-scaled tangent weight array. -/
def mk_edge_point (vertices : Fin 4 → Vec3) (tw : Fin 4 → ℚ) (i j : Fin 4) : Vec3 :=
  tw i • (vertices j - vertices i) + vertices i

/-- Inner helper `mk_face_point` of make_surface: the corner position
displaced by the two tangent-scaled neighbour vectors, each further scaled
by the face weight m, projected onto the corner's plane. -/
def mk_face_point (vertices : Fin 4 → Vec3) (planes : Fin 4 → PlaneEquation)
    (tw : Fin 4 → ℚ) (m : ℚ) (i j k : Fin 4) : Vec3 :=
  let dv1 := tw i • (vertices j - vertices i)
  let dv2 := tw i • (vertices k - vertices i)
  (planes i).projection_of_point (vertices i + m • dv1 + m • dv2)

/-- Output of make_surface: the 16 control points (row major), the 16
weights, and the two degrees of the patch. -/
structure SurfacePatch where
  control_points : List Vec3
  weights : List ℚ
  degree_u : ℕ
  degree_v : ℕ
deriving DecidableEq

/-- Embedding of SvExQuadsToNurbsNode.make_surface (lines 75-147 of the
source). A missing edge-weight key, which raises KeyError in Python,
yields `none`. -/
def make_surface (face : Fin 4 → ℕ) (degree_u degree_v : ℕ)
    (vertices : Fin 4 → Vec3) (planes : Fin 4 → PlaneEquation)
    (vert_weights tangent_weights : Fin 4 → ℚ) (face_weight : ℚ)
    (edge_weights_dict : ℕ × ℕ → Option ℚ) : Option SurfacePatch :=
  let tw : Fin 4 → ℚ := fun i => tangent_weights i / 3
  let e01 := (planes 0).projection_of_point (mk_edge_point vertices tw 0 1)
  let e02 := (planes 1).projection_of_point (mk_edge_point vertices tw 1 0)
  let e11 := (planes 0).projection_of_point (mk_edge_point vertices tw 0 3)
  let e21 := (planes 1).projection_of_point (mk_edge_point vertices tw 1 2)
  let f1 := mk_face_point vertices planes tw face_weight 0 1 3
  let f2 := mk_face_point vertices planes tw face_weight 1 0 2
  let e12 := (planes 3).projection_of_point (mk_edge_point vertices tw 3 0)
  let e31 := (planes 3).projection_of_point (mk_edge_point vertices tw 3 2)
  let e32 := (planes 2).projection_of_point (mk_edge_point vertices tw 2 3)
  let e22 := (planes 2).projection_of_point (mk_edge_point vertices tw 2 1)
  let f3 := mk_face_point vertices planes tw face_weight 3 0 2
  let f4 := mk_face_point vertices planes tw face_weight 2 3 1
  match edge_weights_dict (face 0, face 1), edge_weights_dict (face 0, face 3),
        edge_weights_dict (face 1, face 2), edge_weights_dict (face 2, face 3) with
  | some e0w, some e1w, some e2w, some e3w =>
      some { control_points :=
               [vertices 0, e01, e02, vertices 1,
                e11, f1, f2, e21,
                e12, f3, f4, e22,
                vertices 3, e31, e32, vertices 2],
             weights :=
               [vert_weights 0, e0w, e0w, vert_weights 1,
                e1w, face_weight, face_weight, e2w,
                e1w, face_weight, face_weight, e2w,
                vert_weights 3, e3w, e3w, vert_weights 2],
             degree_u := degree_u,
             degree_v := degree_v }
  | _, _, _, _ => none

/-- The empty edge-weight dictionary. -/
def emptyDict : ℕ × ℕ → Option ℚ := fun _ => none

/-- Dictionary update d[k] = w of the Python dict. -/
def dictInsert (d : ℕ × ℕ → Option ℚ) (k : ℕ × ℕ) (w : ℚ) : ℕ × ℕ → Option ℚ :=
  fun k2 => if k2 = k then some w else d k2

/-- One iteration of the pre-pass loop at lines 196-198 of the source:
store the weight under both orderings of the edge's vertex pair. -/
def insert_edge (d : ℕ × ℕ → Option ℚ) (e : (ℕ × ℕ) × ℚ) : ℕ × ℕ → Option ℚ :=
  dictInsert (dictInsert d (e.1.1, e.1.2) e.2) (e.1.2, e.1.1) e.2

/-- Embedding of the edge-weight pre-pass (lines 194-198): fold the zipped
(edge, weight) pairs into a dictionary, both orderings of each pair. -/
def build_edge_weights_dict (entries : List ((ℕ × ℕ) × ℚ)) : ℕ × ℕ → Option ℚ :=
  entries.foldl insert_edge emptyDict

/-- Per-face parameter tuple as zipped by line 202 of the source:
(face, degree_u, degree_v, face_weight). -/
def FaceEntry : Type := List ℕ × ℕ × ℕ × ℚ

/-- Local corner index array of a face known to have 4 entries. -/
def corner_of (face : List ℕ) : Fin 4 → ℕ := fun i => face.getD i.val 0

/-- Index a global per-vertex array at the four corners of a face; any
out-of-range index (an IndexError in Python) yields none. -/
def fetch4 {α : Type} (l : List α) (c : Fin 4 → ℕ) : Option (Fin 4 → α) :=
  match l.get? (c 0), l.get? (c 1), l.get? (c 2), l.get? (c 3) with
  | some a, some b, some x, some y => some (quad4 a b x y)
  | _, _, _, _ => none

/-- Per-corner data extraction of lines 206-209: positions, planes,
vertex weights and tangent weights of the four corners. -/
def face_data (gv : List Vec3) (gp : List PlaneEquation) (gvw gtw : List ℚ)
    (c : Fin 4 → ℕ) :
    Option ((Fin 4 → Vec3) × (Fin 4 → PlaneEquation) × (Fin 4 → ℚ) × (Fin 4 → ℚ)) :=
  match fetch4 gv c, fetch4 gp c, fetch4 gvw c, fetch4 gtw c with
  | some vs, some ps, some vws, some tws => some (vs, ps, vws, tws)
  | _, _, _, _ => none

/-- Embedding of the per-face loop of `process` (lines 202-219): walk the
zipped per-face tuples, skip any face whose vertex count is not 4 while
recording its index as a diagnostic, and collect one patch per quad.
An error inside a quad (missing edge weight, bad vertex index) aborts the
whole batch, as the uncaught Python exception does. -/
def process_faces (gv : List Vec3) (gp : List PlaneEquation) (gvw gtw : List ℚ)
    (d : ℕ × ℕ → Option ℚ) : ℕ → List FaceEntry → Option (List SurfacePatch × List ℕ)
  | _, [] => some ([], [])
  | n, e :: rest =>
    if e.1.length = 4 then
      match face_data gv gp gvw gtw (corner_of e.1) with
      | some (vs, ps, vws, tws) =>
        match make_surface (corner_of e.1) e.2.1 e.2.2.1 vs ps vws tws e.2.2.2 d with
        | some patch =>
          (process_faces gv gp gvw gtw d (n + 1) rest).map (fun r => (patch :: r.1, r.2))
        | none => none
      | none => none
    else
      (process_faces gv gp gvw gtw d (n + 1) rest).map (fun r => (r.1, n :: r.2))

/-- Record produced by the success branch of make_surface, named so that
the shape of the output can be reasoned about once. -/
def assembled_patch (vertices : Fin 4 → Vec3) (planes : Fin 4 → PlaneEquation)
    (vert_weights tangent_weights : Fin 4 → ℚ) (face_weight : ℚ)
    (degree_u degree_v : ℕ) (e0w e1w e2w e3w : ℚ) : SurfacePatch :=
  let tw : Fin 4 → ℚ := fun i => tangent_weights i / 3
  { control_points :=
      [vertices 0,
       (planes 0).projection_of_point (mk_edge_point vertices tw 0 1),
       (planes 1).projection_of_point (mk_edge_point vertices tw 1 0),
       vertices 1,
       (planes 0).projection_of_point (mk_edge_point vertices tw 0 3),
       mk_face_point vertices planes tw face_weight 0 1 3,
       mk_face_point vertices planes tw face_weight 1 0 2,
       (planes 1).projection_of_point (mk_edge_point vertices tw 1 2),
       (planes 3).projection_of_point (mk_edge_point vertices tw 3 0),
       mk_face_point vertices planes tw face_weight 3 0 2,
       mk_face_point vertices planes tw face_weight 2 3 1,
       (planes 2).projection_of_point (mk_edge_point vertices tw 2 1),
       vertices 3,
       (planes 3).projection_of_point (mk_edge_point vertices tw 3 2),
       (planes 2).projection_of_point (mk_edge_point vertices tw 2 3),
       vertices 2],
    weights :=
      [vert_weights 0, e0w, e0w, vert_weights 1,
       e1w, face_weight, face_weight, e2w,
       e1w, face_weight, face_weight, e2w,
       vert_weights 3, e3w, e3w, vert_weights 2],
    degree_u := degree_u,
    degree_v := degree_v }

theorem make_surface_eq_some (face : Fin 4 → ℕ) (du dv : ℕ)
    (vertices : Fin 4 → Vec3) (planes : Fin 4 → PlaneEquation)
    (vw tw : Fin 4 → ℚ) (fw : ℚ) (d : ℕ × ℕ → Option ℚ) (patch : SurfacePatch)
    (h : make_surface face du dv vertices planes vw tw fw d = some patch) :
    ∃ e0w e1w e2w e3w,
      d (face 0, face 1) = some e0w ∧ d (face 0, face 3) = some e1w ∧
      d (face 1, face 2) = some e2w ∧ d (face 2, face 3) = some e3w ∧
      patch = assembled_patch vertices planes vw tw fw du dv e0w e1w e2w e3w := by
  unfold make_surface at h
  split at h
  next e0w e1w e2w e3w h0 h1 h2 h3 =>
    cases h
    exact ⟨e0w, e1w, e2w, e3w, h0, h1, h2, h3, rfl⟩
  next => exact Option.noConfusion h

theorem Vec3.smul_smul (a b : ℚ) (v : Vec3) : a • (b • v) = (a * b) • v := by
  cases v
  simp [mul_assoc]

/-- Claim C2: each of the 8 boundary edge control points is the raw point
position[i] + (tangentWeight[i]/3) * (position[j] - position[i]) for its
originating corner i toward a boundary-adjacent corner j, orthogonally
projected onto corner i's own tangent plane; each corner supplies exactly
two such points, one toward each of its two quad neighbours (corner 0
toward 1 and 3, corner 1 toward 0 and 2, corner 2 toward 3 and 1,
corner 3 toward 0 and 2). -/
theorem make_surface_edge_points (face : Fin 4 → ℕ) (du dv : ℕ)
    (vertices : Fin 4 → Vec3) (planes : Fin 4 → PlaneEquation)
    (vw tw : Fin 4 → ℚ) (fw : ℚ) (d : ℕ × ℕ → Option ℚ) (patch : SurfacePatch)
    (h : make_surface face du dv vertices planes vw tw fw d = some patch) :
    patch.control_points.get? 1 = some ((planes 0).projection_of_point
      ((tw 0 / 3) • (vertices 1 - vertices 0) + vertices 0)) ∧
    patch.control_points.get? 2 = some ((planes 1).projection_of_point
      ((tw 1 / 3) • (vertices 0 - vertices 1) + vertices 1)) ∧
    patch.control_points.get? 4 = some ((planes 0).projection_of_point
      ((tw 0 / 3) • (vertices 3 - vertices 0) + vertices 0)) ∧
    patch.control_points.get? 7 = some ((planes 1).projection_of_point
      ((tw 1 / 3) • (vertices 2 - vertices 1) + vertices 1)) ∧
    patch.control_points.get? 8 = some ((planes 3).projection_of_point
      ((tw 3 / 3) • (vertices 0 - vertices 3) + vertices 3)) ∧
    patch.control_points.get? 11 = some ((planes 2).projection_of_point
      ((tw 2 / 3) • (vertices 1 - vertices 2) + vertices 2)) ∧
    patch.control_points.get? 13 = some ((planes 3).projection_of_point
      ((tw 3 / 3) • (vertices 2 - vertices 3) + vertices 3)) ∧
    patch.control_points.get? 14 = some ((planes 2).projection_of_point
      ((tw 2 / 3) • (vertices 3 - vertices 2) + vertices 2)) := by
  obtain ⟨e0w, e1w, e2w, e3w, h0, h1, h2, h3, rfl⟩ :=
    make_surface_eq_some face du dv vertices planes vw tw fw d patch h
  exact ⟨rfl, rfl, rfl, rfl, rfl, rfl, rfl, rfl⟩

/-- Claim C3: each of the 4 interior (face) control points is, for its
corner i with quad neighbours j and k, the orthogonal projection onto
corner i's tangent plane of position[i]
+ face_weight * (tangentWeight[i]/3) * (position[j] - position[i])
+ face_weight * (tangentWeight[i]/3) * (position[k] - position[i]);
the corner/neighbour triples are (0,1,3), (1,0,2), (3,0,2), (2,3,1)
at grid slots 5, 6, 9, 10. -/
theorem make_surface_face_points (face : Fin 4 → ℕ) (du dv : ℕ)
    (vertices : Fin 4 → Vec3) (planes : Fin 4 → PlaneEquation)
    (vw tw : Fin 4 → ℚ) (fw : ℚ) (d : ℕ × ℕ → Option ℚ) (patch : SurfacePatch)
    (h : make_surface face du dv vertices planes vw tw fw d = some patch) :
    patch.control_points.get? 5 = some ((planes 0).projection_of_point
      (vertices 0 + (fw * (tw 0 / 3)) • (vertices 1 - vertices 0)
                  + (fw * (tw 0 / 3)) • (vertices 3 - vertices 0))) ∧
    patch.control_points.get? 6 = some ((planes 1).projection_of_point
      (vertices 1 + (fw * (tw 1 / 3)) • (vertices 0 - vertices 1)
                  + (fw * (tw 1 / 3)) • (vertices 2 - vertices 1))) ∧
    patch.control_points.get? 9 = some ((planes 3).projection_of_point
      (vertices 3 + (fw * (tw 3 / 3)) • (vertices 0 - vertices 3)
                  + (fw * (tw 3 / 3)) • (vertices 2 - vertices 3))) ∧
    patch.control_points.get? 10 = some ((planes 2).projection_of_point
      (vertices 2 + (fw * (tw 2 / 3)) • (vertices 3 - vertices 2)
                  + (fw * (tw 2 / 3)) • (vertices 1 - vertices 2))) := by
  obtain ⟨e0w, e1w, e2w, e3w, h0, h1, h2, h3, rfl⟩ :=
    make_surface_eq_some face du dv vertices planes vw tw fw d patch h
  refine ⟨?_, ?_, ?_, ?_⟩ <;>
    simp [assembled_patch, mk_face_point, Vec3.smul_smul, mul_assoc]

/-- Claim C4: the returned 4x4 control grid has the fixed layout
row 0 = [corner0, e01, e02, corner1], row 1 = [e11, f1, f2, e21],
row 2 = [e12, f3, f4, e22], row 3 = [corner3, e31, e32, corner2]; in
particular the corner slots 0, 3, 12, 15 hold the input corner positions
exactly, with no projection or displacement applied to them. -/
theorem make_surface_grid_layout (face : Fin 4 → ℕ) (du dv : ℕ)
    (vertices : Fin 4 → Vec3) (planes : Fin 4 → PlaneEquation)
    (vw tw : Fin 4 → ℚ) (fw : ℚ) (d : ℕ × ℕ → Option ℚ) (patch : SurfacePatch)
    (h : make_surface face du dv vertices planes vw tw fw d = some patch) :
    patch.control_points =
      [vertices 0,
       (planes 0).projection_of_point (mk_edge_point vertices (fun i => tw i / 3) 0 1),
       (planes 1).projection_of_point (mk_edge_point vertices (fun i => tw i / 3) 1 0),
       vertices 1,
       (planes 0).projection_of_point (mk_edge_point vertices (fun i => tw i / 3) 0 3),
       mk_face_point vertices planes (fun i => tw i / 3) fw 0 1 3,
       mk_face_point vertices planes (fun i => tw i / 3) fw 1 0 2,
       (planes 1).projection_of_point (mk_edge_point vertices (fun i => tw i / 3) 1 2),
       (planes 3).projection_of_point (mk_edge_point vertices (fun i => tw i / 3) 3 0),
       mk_face_point vertices planes (fun i => tw i / 3) fw 3 0 2,
       mk_face_point vertices planes (fun i => tw i / 3) fw 2 3 1,
       (planes 2).projection_of_point (mk_edge_point vertices (fun i => tw i / 3) 2 1),
       vertices 3,
       (planes 3).projection_of_point (mk_edge_point vertices (fun i => tw i / 3) 3 2),
       (planes 2).projection_of_point (mk_edge_point vertices (fun i => tw i / 3) 2 3),
       vertices 2] ∧
    patch.control_points.get? 0 = some (vertices 0) ∧
    patch.control_points.get? 3 = some (vertices 1) ∧
    patch.control_points.get? 12 = some (vertices 3) ∧
    patch.control_points.get? 15 = some (vertices 2) := by
  obtain ⟨e0w, e1w, e2w, e3w, h0, h1, h2, h3, rfl⟩ :=
    make_surface_eq_some face du dv vertices planes vw tw fw d patch h
  exact ⟨rfl, rfl, rfl, rfl, rfl⟩

/-- Claim C5: the returned 4x4 weight grid places each corner's vertex
weight at its corner slot (slots 0, 3, 12, 15 for corners 0, 1, 3, 2),
face_weight in the 4 interior slots, and for each quad side places that
side's edge weight, looked up order-independently by the side's two global
vertex indices, into both boundary slots of the side (side {0,1} at slots
1, 2; side {0,3} at slots 4, 8; side {1,2} at slots 7, 11; side {2,3} at
slots 13, 14). -/
theorem make_surface_weight_grid (face : Fin 4 → ℕ) (du dv : ℕ)
    (vertices : Fin 4 → Vec3) (planes : Fin 4 → PlaneEquation)
    (vw tw : Fin 4 → ℚ) (fw : ℚ) (d : ℕ × ℕ → Option ℚ) (patch : SurfacePatch)
    (sym : ∀ a b : ℕ, d (a, b) = d (b, a))
    (h : make_surface face du dv vertices planes vw tw fw d = some patch) :
    (patch.weights.get? 0 = some (vw 0) ∧ patch.weights.get? 3 = some (vw 1) ∧
     patch.weights.get? 12 = some (vw 3) ∧ patch.weights.get? 15 = some (vw 2)) ∧
    (patch.weights.get? 5 = some fw ∧ patch.weights.get? 6 = some fw ∧
     patch.weights.get? 9 = some fw ∧ patch.weights.get? 10 = some fw) ∧
    (patch.weights.get? 1 = d (face 0, face 1) ∧
     patch.weights.get? 2 = d (face 0, face 1) ∧
     d (face 0, face 1) = d (face 1, face 0)) ∧
    (patch.weights.get? 4 = d (face 0, face 3) ∧
     patch.weights.get? 8 = d (face 0, face 3) ∧
     d (face 0, face 3) = d (face 3, face 0)) ∧
    (patch.weights.get? 7 = d (face 1, face 2) ∧
     patch.weights.get? 11 = d (face 1, face 2) ∧
     d (face 1, face 2) = d (face 2, face 1)) ∧
    (patch.weights.get? 13 = d (face 2, face 3) ∧
     patch.weights.get? 14 = d (face 2, face 3) ∧
     d (face 2, face 3) = d (face 3, face 2)) := by
  obtain ⟨e0w, e1w, e2w, e3w, h0, h1, h2, h3, rfl⟩ :=
    make_surface_eq_some face du dv vertices planes vw tw fw d patch h
  refine ⟨⟨rfl, rfl, rfl, rfl⟩, ⟨rfl, rfl, rfl, rfl⟩,
    ⟨?_, ?_, sym _ _⟩, ⟨?_, ?_, sym _ _⟩, ⟨?_, ?_, sym _ _⟩, ⟨?_, ?_, sym _ _⟩⟩ <;>
    simp [assembled_patch, h0, h1, h2, h3]

theorem projection_of_point_self (pl : PlaneEquation) (p : Vec3)
    (hp : dot pl.normal p + pl.d = 0) : pl.projection_of_point p = p := by
  cases p
  simp [PlaneEquation.projection_of_point, hp]

theorem from_normal_and_point_through (n p : Vec3) :
    dot (PlaneEquation.from_normal_and_point n p).normal p
      + (PlaneEquation.from_normal_and_point n p).d = 0 := by
  simp [PlaneEquation.from_normal_and_point]

theorem mk_edge_point_zero (vertices : Fin 4 → Vec3) (tw : Fin 4 → ℚ)
    (htw : ∀ i, tw i = 0) (i j : Fin 4) :
    mk_edge_point vertices (fun k => tw k / 3) i j = vertices i := by
  cases hv : vertices i
  simp [mk_edge_point, htw, hv]

theorem mk_face_point_zero (vertices : Fin 4 → Vec3) (planes : Fin 4 → PlaneEquation)
    (tw : Fin 4 → ℚ) (fw : ℚ) (htw : ∀ i, tw i = 0) (i j k : Fin 4) :
    mk_face_point vertices planes (fun t => tw t / 3) fw i j k
      = (planes i).projection_of_point (vertices i) := by
  cases hv : vertices i
  simp [mk_face_point, htw, hv]

/-- Claim C6: if every tangent weight is 0 and each corner's tangent plane
passes through that corner's position, make_surface still produces a patch
(the degenerate input is processed normally), each of the 8 edge control
points equals its originating corner's position exactly, and each of the
4 face control points equals the corner's position projected onto that
corner's own tangent plane. -/
theorem make_surface_zero_tangent (face : Fin 4 → ℕ) (du dv : ℕ)
    (vertices : Fin 4 → Vec3) (planes : Fin 4 → PlaneEquation)
    (vw tw : Fin 4 → ℚ) (fw : ℚ) (d : ℕ × ℕ → Option ℚ) (patch : SurfacePatch)
    (htw : ∀ i, tw i = 0)
    (hpl : ∀ i, dot (planes i).normal (vertices i) + (planes i).d = 0)
    (h : make_surface face du dv vertices planes vw tw fw d = some patch) :
    (patch.control_points.get? 1 = some (vertices 0) ∧
     patch.control_points.get? 2 = some (vertices 1) ∧
     patch.control_points.get? 4 = some (vertices 0) ∧
     patch.control_points.get? 7 = some (vertices 1) ∧
     patch.control_points.get? 8 = some (vertices 3) ∧
     patch.control_points.get? 11 = some (vertices 2) ∧
     patch.control_points.get? 13 = some (vertices 3) ∧
     patch.control_points.get? 14 = some (vertices 2)) ∧
    (patch.control_points.get? 5 = some ((planes 0).projection_of_point (vertices 0)) ∧
     patch.control_points.get? 6 = some ((planes 1).projection_of_point (vertices 1)) ∧
     patch.control_points.get? 9 = some ((planes 3).projection_of_point (vertices 3)) ∧
     patch.control_points.get? 10 = some ((planes 2).projection_of_point (vertices 2))) := by
  obtain ⟨e0w, e1w, e2w, e3w, h0, h1, h2, h3, rfl⟩ :=
    make_surface_eq_some face du dv vertices planes vw tw fw d patch h
  have hproj : ∀ i : Fin 4, (planes i).projection_of_point (vertices i) = vertices i :=
    fun i => projection_of_point_self _ _ (hpl i)
  refine ⟨⟨?_, ?_, ?_, ?_, ?_, ?_, ?_, ?_⟩, ?_, ?_, ?_, ?_⟩
  · show some ((planes 0).projection_of_point
      (mk_edge_point vertices (fun k => tw k / 3) 0 1)) = some (vertices 0)
    rw [mk_edge_point_zero vertices tw htw, hproj]
  · show some ((planes 1).projection_of_point
      (mk_edge_point vertices (fun k => tw k / 3) 1 0)) = some (vertices 1)
    rw [mk_edge_point_zero vertices tw htw, hproj]
  · show some ((planes 0).projection_of_point
      (mk_edge_point vertices (fun k => tw k / 3) 0 3)) = some (vertices 0)
    rw [mk_edge_point_zero vertices tw htw, hproj]
  · show some ((planes 1).projection_of_point
      (mk_edge_point vertices (fun k => tw k / 3) 1 2)) = some (vertices 1)
    rw [mk_edge_point_zero vertices tw htw, hproj]
  · show some ((planes 3).projection_of_point
      (mk_edge_point vertices (fun k => tw k / 3) 3 0)) = some (vertices 3)
    rw [mk_edge_point_zero vertices tw htw, hproj]
  · show some ((planes 2).projection_of_point
      (mk_edge_point vertices (fun k => tw k / 3) 2 1)) = some (vertices 2)
    rw [mk_edge_point_zero vertices tw htw, hproj]
  · show some ((planes 3).projection_of_point
      (mk_edge_point vertices (fun k => tw k / 3) 3 2)) = some (vertices 3)
    rw [mk_edge_point_zero vertices tw htw, hproj]
  · show some ((planes 2).projection_of_point
      (mk_edge_point vertices (fun k => tw k / 3) 2 3)) = some (vertices 2)
    rw [mk_edge_point_zero vertices tw htw, hproj]
  · show some (mk_face_point vertices planes (fun t => tw t / 3) fw 0 1 3)
      = some ((planes 0).projection_of_point (vertices 0))
    rw [mk_face_point_zero vertices planes tw fw htw]
  · show some (mk_face_point vertices planes (fun t => tw t / 3) fw 1 0 2)
      = some ((planes 1).projection_of_point (vertices 1))
    rw [mk_face_point_zero vertices planes tw fw htw]
  · show some (mk_face_point vertices planes (fun t => tw t / 3) fw 3 0 2)
      = some ((planes 3).projection_of_point (vertices 3))
    rw [mk_face_point_zero vertices planes tw fw htw]
  · show some (mk_face_point vertices planes (fun t => tw t / 3) fw 2 3 1)
      = some ((planes 2).projection_of_point (vertices 2))
    rw [mk_face_point_zero vertices planes tw fw htw]

/-- Claim C9: make_surface fails (returns none, the KeyError of the
source) exactly when one of the four ordered boundary-edge lookups is
absent from the edge-weight table; in particular an edge absent under
both orderings makes the quad's construction fail with no partial patch
output, and when every boundary edge is present the failure branch is
unreachable. -/
theorem make_surface_missing_edge_weight (face : Fin 4 → ℕ) (du dv : ℕ)
    (vertices : Fin 4 → Vec3) (planes : Fin 4 → PlaneEquation)
    (vw tw : Fin 4 → ℚ) (fw : ℚ) (d : ℕ × ℕ → Option ℚ) :
    make_surface face du dv vertices planes vw tw fw d = none ↔
      (d (face 0, face 1) = none ∨ d (face 0, face 3) = none ∨
       d (face 1, face 2) = none ∨ d (face 2, face 3) = none) := by
  unfold make_surface
  rcases h0 : d (face 0, face 1) with _ | w0 <;>
  rcases h1 : d (face 0, face 3) with _ | w1 <;>
  rcases h2 : d (face 1, face 2) with _ | w2 <;>
  rcases h3 : d (face 2, face 3) with _ | w3 <;>
  simp [h0, h1, h2, h3]

theorem insert_edge_sym (d0 : ℕ × ℕ → Option ℚ)
    (hd : ∀ a b : ℕ, d0 (a, b) = d0 (b, a)) (e : (ℕ × ℕ) × ℚ) (a b : ℕ) :
    insert_edge d0 e (a, b) = insert_edge d0 e (b, a) := by
  rcases e with ⟨⟨i, j⟩, w⟩
  simp only [insert_edge, dictInsert, Prod.mk.injEq]
  split_ifs with h1 h2 h3 h4 h5 h6 <;> first | rfl | exact hd a b | omega

theorem foldl_insert_sym (entries : List ((ℕ × ℕ) × ℚ)) :
    ∀ (d0 : ℕ × ℕ → Option ℚ), (∀ a b : ℕ, d0 (a, b) = d0 (b, a)) →
    ∀ a b : ℕ, entries.foldl insert_edge d0 (a, b) = entries.foldl insert_edge d0 (b, a) := by
  induction entries with
  | nil => intro d0 hd a b; exact hd a b
  | cons e rest ih =>
    intro d0 hd a b
    exact ih (insert_edge d0 e) (fun x y => insert_edge_sym d0 hd e x y) a b

/-- Claim C7: the edge-weight table built by the batch pre-pass is
symmetric: looking up (i, j) and looking up (j, i) always return the same
value, so a side's weight is order-independent for every quad that
references it. -/
theorem edge_weights_dict_sym (entries : List ((ℕ × ℕ) × ℚ)) (i j : ℕ) :
    build_edge_weights_dict entries (i, j) = build_edge_weights_dict entries (j, i) :=
  foldl_insert_sym entries emptyDict (fun _ _ => rfl) i j

theorem foldl_insert_no_touch (i j : ℕ) (entries : List ((ℕ × ℕ) × ℚ)) :
    ∀ (d0 : ℕ × ℕ → Option ℚ),
    (∀ e ∈ entries, e.1 ≠ (i, j) ∧ e.1 ≠ (j, i)) →
    entries.foldl insert_edge d0 (i, j) = d0 (i, j) := by
  induction entries with
  | nil => intro d0 _; rfl
  | cons e rest ih =>
    intro d0 h
    have he := h e (List.mem_cons_self e rest)
    have hrest : ∀ e2 ∈ rest, e2.1 ≠ (i, j) ∧ e2.1 ≠ (j, i) :=
      fun e2 hm => h e2 (List.mem_cons_of_mem _ hm)
    rw [List.foldl_cons, ih (insert_edge d0 e) hrest]
    rcases e with ⟨⟨p, q⟩, w⟩
    simp only [ne_eq, Prod.mk.injEq, not_and] at he
    simp only [insert_edge, dictInsert, Prod.mk.injEq]
    rw [if_neg (by omega), if_neg (by omega)]

/-- Claim C10: when the same unordered vertex pair occurs more than once
in the edge list (in either orientation), the pre-pass table maps both
orderings of the pair to the weight zipped with the last occurrence;
earlier occurrences are silently overwritten. -/
theorem build_edge_weights_dict_last_wins (pre post : List ((ℕ × ℕ) × ℚ))
    (i j : ℕ) (w : ℚ)
    (h : ∀ e ∈ post, e.1 ≠ (i, j) ∧ e.1 ≠ (j, i)) :
    build_edge_weights_dict (pre ++ ((i, j), w) :: post) (i, j) = some w ∧
    build_edge_weights_dict (pre ++ ((i, j), w) :: post) (j, i) = some w := by
  unfold build_edge_weights_dict
  rw [List.foldl_append, List.foldl_cons]
  constructor
  · rw [foldl_insert_no_touch i j post _ h]
    simp only [insert_edge, dictInsert, Prod.mk.injEq]
    split_ifs with h1 <;> rfl
  · have h2 : ∀ e ∈ post, e.1 ≠ (j, i) ∧ e.1 ≠ (i, j) :=
      fun e hm => ⟨(h e hm).2, (h e hm).1⟩
    rw [foldl_insert_no_touch j i post _ h2]
    simp [insert_edge, dictInsert]

/-- Face [0, 1, 2, 3] of the end-to-end scenario. -/
def unit_face : Fin 4 → ℕ := quad4 0 1 2 3

/-- Unit square corners of the end-to-end scenario. -/
def unit_vertices : Fin 4 → Vec3 := quad4 ⟨0, 0, 0⟩ ⟨1, 0, 0⟩ ⟨1, 1, 0⟩ ⟨0, 1, 0⟩

/-- Tangent planes of the end-to-end scenario: normal (0,0,1) through each
corner, as the pre-pass builds them from the accumulated vertex normals. -/
def unit_planes : Fin 4 → PlaneEquation :=
  fun i => PlaneEquation.from_normal_and_point ⟨0, 0, 1⟩ (unit_vertices i)

/-- Edge-weight table of the end-to-end scenario: the four sides of the
quad, each with weight 1, run through the batch pre-pass. -/
def unit_dict : ℕ × ℕ → Option ℚ :=
  build_edge_weights_dict [((0, 1), 1), ((1, 2), 1), ((2, 3), 1), ((3, 0), 1)]

/-- Constant per-corner weight arrays. -/
def ones4 : Fin 4 → ℚ := fun _ => 1

def threes4 : Fin 4 → ℚ := fun _ => 3

def zeros4 : Fin 4 → ℚ := fun _ => 0

theorem unit_vertices_0 : unit_vertices 0 = ⟨0, 0, 0⟩ := rfl

theorem unit_vertices_1 : unit_vertices 1 = ⟨1, 0, 0⟩ := rfl

theorem unit_vertices_2 : unit_vertices 2 = ⟨1, 1, 0⟩ := rfl

theorem unit_vertices_3 : unit_vertices 3 = ⟨0, 1, 0⟩ := rfl

theorem unit_planes_0 :
    unit_planes 0 = PlaneEquation.from_normal_and_point ⟨0, 0, 1⟩ ⟨0, 0, 0⟩ := rfl

theorem unit_planes_1 :
    unit_planes 1 = PlaneEquation.from_normal_and_point ⟨0, 0, 1⟩ ⟨1, 0, 0⟩ := rfl

theorem unit_planes_2 :
    unit_planes 2 = PlaneEquation.from_normal_and_point ⟨0, 0, 1⟩ ⟨1, 1, 0⟩ := rfl

theorem unit_planes_3 :
    unit_planes 3 = PlaneEquation.from_normal_and_point ⟨0, 0, 1⟩ ⟨0, 1, 0⟩ := rfl

/-- Patch produced on the unit square with all tangent weights 3. -/
def demo_patch3 : SurfacePatch :=
  (make_surface unit_face 3 3 unit_vertices unit_planes ones4 threes4 1 unit_dict).getD
    ⟨[], [], 0, 0⟩

theorem demo_patch3_eq :
    make_surface unit_face 3 3 unit_vertices unit_planes ones4 threes4 1 unit_dict
      = some demo_patch3 := rfl

/-- Patch produced on the unit square with all tangent weights 0. -/
def demo_patch0 : SurfacePatch :=
  (make_surface unit_face 3 3 unit_vertices unit_planes ones4 zeros4 1 unit_dict).getD
    ⟨[], [], 0, 0⟩

theorem demo_patch0_eq :
    make_surface unit_face 3 3 unit_vertices unit_planes ones4 zeros4 1 unit_dict
      = some demo_patch0 := rfl

/-- Claim C1 counterexample: on the unit square with all weights 1 and all
tangent weights 3.0 (effective tangent influence 3/3 = 1), the boundary
slot 1 of the returned grid is (1,0,0) and slot 2 is (0,0,0) - the far
corner and the near corner - not the evenly spaced points (1/3,0,0) and
(2/3,0,0) the claim requires along that side. -/
theorem unit_square_tw3_not_evenly_spaced :
    make_surface unit_face 3 3 unit_vertices unit_planes ones4 threes4 1 unit_dict
      = some demo_patch3 ∧
    demo_patch3.control_points.get? 1 = some ⟨1, 0, 0⟩ ∧
    demo_patch3.control_points.get? 2 = some ⟨0, 0, 0⟩ ∧
    (⟨1, 0, 0⟩ : Vec3) ≠ ⟨1/3, 0, 0⟩ ∧ (⟨0, 0, 0⟩ : Vec3) ≠ ⟨2/3, 0, 0⟩ := by
  refine ⟨demo_patch3_eq, ?_, ?_, ?_, ?_⟩
  · have h : demo_patch3.control_points.get? 1 = some ((unit_planes 0).projection_of_point
        (mk_edge_point unit_vertices (fun i => threes4 i / 3) 0 1)) := rfl
    rw [h]
    norm_num [mk_edge_point, PlaneEquation.projection_of_point,
      PlaneEquation.from_normal_and_point, dot, threes4,
      unit_vertices_0, unit_vertices_1, unit_planes_0, Vec3.mk.injEq]
  · have h : demo_patch3.control_points.get? 2 = some ((unit_planes 1).projection_of_point
        (mk_edge_point unit_vertices (fun i => threes4 i / 3) 1 0)) := rfl
    rw [h]
    norm_num [mk_edge_point, PlaneEquation.projection_of_point,
      PlaneEquation.from_normal_and_point, dot, threes4,
      unit_vertices_0, unit_vertices_1, unit_planes_1, Vec3.mk.injEq]
  · norm_num [Vec3.mk.injEq]
  · norm_num [Vec3.mk.injEq]

/-- Claim C1 as amended: on the unit square quad with corner normals
(0,0,1), all vertex/edge/face weights 1 and all tangent weights 1.0
(effective tangent influence 1/3), degree 3 in both directions,
make_surface returns the fully regular grid: 16 control points at
(c/3, r/3, 0) for row r and column c - all in the z = 0 plane, evenly
spaced at 0, 1/3, 2/3, 1 along each side - and 16 weights all equal 1. -/
theorem unit_square_tw1_grid :
    make_surface unit_face 3 3 unit_vertices unit_planes ones4 ones4 1 unit_dict =
      some { control_points :=
               [⟨0, 0, 0⟩, ⟨1/3, 0, 0⟩, ⟨2/3, 0, 0⟩, ⟨1, 0, 0⟩,
                ⟨0, 1/3, 0⟩, ⟨1/3, 1/3, 0⟩, ⟨2/3, 1/3, 0⟩, ⟨1, 1/3, 0⟩,
                ⟨0, 2/3, 0⟩, ⟨1/3, 2/3, 0⟩, ⟨2/3, 2/3, 0⟩, ⟨1, 2/3, 0⟩,
                ⟨0, 1, 0⟩, ⟨1/3, 1, 0⟩, ⟨2/3, 1, 0⟩, ⟨1, 1, 0⟩],
             weights := [1, 1, 1, 1, 1, 1, 1, 1, 1, 1, 1, 1, 1, 1, 1, 1],
             degree_u := 3, degree_v := 3 } := by
  have h : make_surface unit_face 3 3 unit_vertices unit_planes ones4 ones4 1 unit_dict
      = some (assembled_patch unit_vertices unit_planes ones4 ones4 1 3 3 1 1 1 1) := rfl
  rw [h]
  norm_num [assembled_patch, mk_edge_point, mk_face_point,
    PlaneEquation.projection_of_point, PlaneEquation.from_normal_and_point, dot,
    ones4, unit_vertices_0, unit_vertices_1, unit_vertices_2, unit_vertices_3,
    unit_planes_0, unit_planes_1, unit_planes_2, unit_planes_3,
    SurfacePatch.mk.injEq, Vec3.mk.injEq]

theorem unit_dict_sym : ∀ a b : ℕ, unit_dict (a, b) = unit_dict (b, a) :=
  fun a b => foldl_insert_sym _ emptyDict (fun _ _ => rfl) a b

theorem unit_planes_through :
    ∀ i : Fin 4, dot (unit_planes i).normal (unit_vertices i) + (unit_planes i).d = 0 :=
  fun i => from_normal_and_point_through ⟨0, 0, 1⟩ (unit_vertices i)

theorem make_surface_edge_points_witness :
    (make_surface unit_face 3 3 unit_vertices unit_planes ones4 threes4 1 unit_dict
      = some demo_patch3) ∧
    (demo_patch3.control_points.get? 1 = some ((unit_planes 0).projection_of_point
      ((threes4 0 / 3) • (unit_vertices 1 - unit_vertices 0) + unit_vertices 0)) ∧
    demo_patch3.control_points.get? 2 = some ((unit_planes 1).projection_of_point
      ((threes4 1 / 3) • (unit_vertices 0 - unit_vertices 1) + unit_vertices 1)) ∧
    demo_patch3.control_points.get? 4 = some ((unit_planes 0).projection_of_point
      ((threes4 0 / 3) • (unit_vertices 3 - unit_vertices 0) + unit_vertices 0)) ∧
    demo_patch3.control_points.get? 7 = some ((unit_planes 1).projection_of_point
      ((threes4 1 / 3) • (unit_vertices 2 - unit_vertices 1) + unit_vertices 1)) ∧
    demo_patch3.control_points.get? 8 = some ((unit_planes 3).projection_of_point
      ((threes4 3 / 3) • (unit_vertices 0 - unit_vertices 3) + unit_vertices 3)) ∧
    demo_patch3.control_points.get? 11 = some ((unit_planes 2).projection_of_point
      ((threes4 2 / 3) • (unit_vertices 1 - unit_vertices 2) + unit_vertices 2)) ∧
    demo_patch3.control_points.get? 13 = some ((unit_planes 3).projection_of_point
      ((threes4 3 / 3) • (unit_vertices 2 - unit_vertices 3) + unit_vertices 3)) ∧
    demo_patch3.control_points.get? 14 = some ((unit_planes 2).projection_of_point
      ((threes4 2 / 3) • (unit_vertices 3 - unit_vertices 2) + unit_vertices 2))) :=
  ⟨demo_patch3_eq,
   make_surface_edge_points unit_face 3 3 unit_vertices unit_planes ones4 threes4 1
     unit_dict demo_patch3 demo_patch3_eq⟩

theorem make_surface_face_points_witness :
    (make_surface unit_face 3 3 unit_vertices unit_planes ones4 threes4 1 unit_dict
      = some demo_patch3) ∧
    (demo_patch3.control_points.get? 5 = some ((unit_planes 0).projection_of_point
      (unit_vertices 0 + (1 * (threes4 0 / 3)) • (unit_vertices 1 - unit_vertices 0)
                       + (1 * (threes4 0 / 3)) • (unit_vertices 3 - unit_vertices 0))) ∧
    demo_patch3.control_points.get? 6 = some ((unit_planes 1).projection_of_point
      (unit_vertices 1 + (1 * (threes4 1 / 3)) • (unit_vertices 0 - unit_vertices 1)
                       + (1 * (threes4 1 / 3)) • (unit_vertices 2 - unit_vertices 1))) ∧
    demo_patch3.control_points.get? 9 = some ((unit_planes 3).projection_of_point
      (unit_vertices 3 + (1 * (threes4 3 / 3)) • (unit_vertices 0 - unit_vertices 3)
                       + (1 * (threes4 3 / 3)) • (unit_vertices 2 - unit_vertices 3))) ∧
    demo_patch3.control_points.get? 10 = some ((unit_planes 2).projection_of_point
      (unit_vertices 2 + (1 * (threes4 2 / 3)) • (unit_vertices 3 - unit_vertices 2)
                       + (1 * (threes4 2 / 3)) • (unit_vertices 1 - unit_vertices 2)))) :=
  ⟨demo_patch3_eq,
   make_surface_face_points unit_face 3 3 unit_vertices unit_planes ones4 threes4 1
     unit_dict demo_patch3 demo_patch3_eq⟩

theorem make_surface_grid_layout_witness :
    (make_surface unit_face 3 3 unit_vertices unit_planes ones4 threes4 1 unit_dict
      = some demo_patch3) ∧
    (demo_patch3.control_points =
      [unit_vertices 0,
       (unit_planes 0).projection_of_point
         (mk_edge_point unit_vertices (fun i => threes4 i / 3) 0 1),
       (unit_planes 1).projection_of_point
         (mk_edge_point unit_vertices (fun i => threes4 i / 3) 1 0),
       unit_vertices 1,
       (unit_planes 0).projection_of_point
         (mk_edge_point unit_vertices (fun i => threes4 i / 3) 0 3),
       mk_face_point unit_vertices unit_planes (fun i => threes4 i / 3) 1 0 1 3,
       mk_face_point unit_vertices unit_planes (fun i => threes4 i / 3) 1 1 0 2,
       (unit_planes 1).projection_of_point
         (mk_edge_point unit_vertices (fun i => threes4 i / 3) 1 2),
       (unit_planes 3).projection_of_point
         (mk_edge_point unit_vertices (fun i => threes4 i / 3) 3 0),
       mk_face_point unit_vertices unit_planes (fun i => threes4 i / 3) 1 3 0 2,
       mk_face_point unit_vertices unit_planes (fun i => threes4 i / 3) 1 2 3 1,
       (unit_planes 2).projection_of_point
         (mk_edge_point unit_vertices (fun i => threes4 i / 3) 2 1),
       unit_vertices 3,
       (unit_planes 3).projection_of_point
         (mk_edge_point unit_vertices (fun i => threes4 i / 3) 3 2),
       (unit_planes 2).projection_of_point
         (mk_edge_point unit_vertices (fun i => threes4 i / 3) 2 3),
       unit_vertices 2] ∧
    demo_patch3.control_points.get? 0 = some (unit_vertices 0) ∧
    demo_patch3.control_points.get? 3 = some (unit_vertices 1) ∧
    demo_patch3.control_points.get? 12 = some (unit_vertices 3) ∧
    demo_patch3.control_points.get? 15 = some (unit_vertices 2)) :=
  ⟨demo_patch3_eq,
   make_surface_grid_layout unit_face 3 3 unit_vertices unit_planes ones4 threes4 1
     unit_dict demo_patch3 demo_patch3_eq⟩

theorem make_surface_weight_grid_witness :
    (∀ a b : ℕ, unit_dict (a, b) = unit_dict (b, a)) ∧
    (make_surface unit_face 3 3 unit_vertices unit_planes ones4 threes4 1 unit_dict
      = some demo_patch3) ∧
    ((demo_patch3.weights.get? 0 = some (ones4 0) ∧
      demo_patch3.weights.get? 3 = some (ones4 1) ∧
      demo_patch3.weights.get? 12 = some (ones4 3) ∧
      demo_patch3.weights.get? 15 = some (ones4 2)) ∧
     (demo_patch3.weights.get? 5 = some 1 ∧ demo_patch3.weights.get? 6 = some 1 ∧
      demo_patch3.weights.get? 9 = some 1 ∧ demo_patch3.weights.get? 10 = some 1) ∧
     (demo_patch3.weights.get? 1 = unit_dict (unit_face 0, unit_face 1) ∧
      demo_patch3.weights.get? 2 = unit_dict (unit_face 0, unit_face 1) ∧
      unit_dict (unit_face 0, unit_face 1) = unit_dict (unit_face 1, unit_face 0)) ∧
     (demo_patch3.weights.get? 4 = unit_dict (unit_face 0, unit_face 3) ∧
      demo_patch3.weights.get? 8 = unit_dict (unit_face 0, unit_face 3) ∧
      unit_dict (unit_face 0, unit_face 3) = unit_dict (unit_face 3, unit_face 0)) ∧
     (demo_patch3.weights.get? 7 = unit_dict (unit_face 1, unit_face 2) ∧
      demo_patch3.weights.get? 11 = unit_dict (unit_face 1, unit_face 2) ∧
      unit_dict (unit_face 1, unit_face 2) = unit_dict (unit_face 2, unit_face 1)) ∧
     (demo_patch3.weights.get? 13 = unit_dict (unit_face 2, unit_face 3) ∧
      demo_patch3.weights.get? 14 = unit_dict (unit_face 2, unit_face 3) ∧
      unit_dict (unit_face 2, unit_face 3) = unit_dict (unit_face 3, unit_face 2))) :=
  ⟨unit_dict_sym, demo_patch3_eq,
   make_surface_weight_grid unit_face 3 3 unit_vertices unit_planes ones4 threes4 1
     unit_dict demo_patch3 unit_dict_sym demo_patch3_eq⟩

theorem make_surface_zero_tangent_witness :
    (∀ i : Fin 4, zeros4 i = 0) ∧
    (∀ i : Fin 4, dot (unit_planes i).normal (unit_vertices i) + (unit_planes i).d = 0) ∧
    (make_surface unit_face 3 3 unit_vertices unit_planes ones4 zeros4 1 unit_dict
      = some demo_patch0) ∧
    ((demo_patch0.control_points.get? 1 = some (unit_vertices 0) ∧
      demo_patch0.control_points.get? 2 = some (unit_vertices 1) ∧
      demo_patch0.control_points.get? 4 = some (unit_vertices 0) ∧
      demo_patch0.control_points.get? 7 = some (unit_vertices 1) ∧
      demo_patch0.control_points.get? 8 = some (unit_vertices 3) ∧
      demo_patch0.control_points.get? 11 = some (unit_vertices 2) ∧
      demo_patch0.control_points.get? 13 = some (unit_vertices 3) ∧
      demo_patch0.control_points.get? 14 = some (unit_vertices 2)) ∧
     (demo_patch0.control_points.get? 5
        = some ((unit_planes 0).projection_of_point (unit_vertices 0)) ∧
      demo_patch0.control_points.get? 6
        = some ((unit_planes 1).projection_of_point (unit_vertices 1)) ∧
      demo_patch0.control_points.get? 9
        = some ((unit_planes 3).projection_of_point (unit_vertices 3)) ∧
      demo_patch0.control_points.get? 10
        = some ((unit_planes 2).projection_of_point (unit_vertices 2)))) :=
  ⟨fun _ => rfl, unit_planes_through, demo_patch0_eq,
   make_surface_zero_tangent unit_face 3 3 unit_vertices unit_planes ones4 zeros4 1
     unit_dict demo_patch0 (fun _ => rfl) unit_planes_through demo_patch0_eq⟩

theorem build_edge_weights_dict_last_wins_witness :
    (∀ e ∈ ([((2, 3), (9 : ℚ))] : List ((ℕ × ℕ) × ℚ)), e.1 ≠ (1, 0) ∧ e.1 ≠ (0, 1)) ∧
    (build_edge_weights_dict
       ([((0, 1), (5 : ℚ))] ++ ((1, 0), (7 : ℚ)) :: [((2, 3), (9 : ℚ))]) (1, 0) = some 7 ∧
     build_edge_weights_dict
       ([((0, 1), (5 : ℚ))] ++ ((1, 0), (7 : ℚ)) :: [((2, 3), (9 : ℚ))]) (0, 1) = some 7) :=
  ⟨by decide,
   build_edge_weights_dict_last_wins [((0, 1), 5)] [((2, 3), 9)] 1 0 7 (by decide)⟩

theorem option_map_fst_cons (patch : SurfacePatch)
    (x y : Option (List SurfacePatch × List ℕ))
    (h : Option.map Prod.fst x = Option.map Prod.fst y) :
    Option.map Prod.fst (x.map fun r => (patch :: r.1, r.2))
      = Option.map Prod.fst (y.map fun r => (patch :: r.1, r.2)) := by
  rw [Option.map_map, Option.map_map]
  show Option.map (List.cons patch ∘ Prod.fst) x
    = Option.map (List.cons patch ∘ Prod.fst) y
  rw [← Option.map_map, ← Option.map_map, h]

theorem option_map_fst_diag (n : ℕ) (x : Option (List SurfacePatch × List ℕ)) :
    Option.map Prod.fst (x.map fun r => (r.1, n :: r.2)) = Option.map Prod.fst x := by
  rw [Option.map_map]
  rfl

theorem process_faces_fst_index (gv : List Vec3) (gp : List PlaneEquation)
    (gvw gtw : List ℚ) (d : ℕ × ℕ → Option ℚ) :
    ∀ (faces : List FaceEntry) (n m : ℕ),
    Option.map Prod.fst (process_faces gv gp gvw gtw d n faces)
      = Option.map Prod.fst (process_faces gv gp gvw gtw d m faces) := by
  intro faces
  induction faces with
  | nil => intro n m; rfl
  | cons e rest ih =>
    intro n m
    simp only [process_faces]
    split
    · split
      · split
        · exact option_map_fst_cons _ _ _ (ih (n + 1) (m + 1))
        · rfl
      · rfl
    · rw [option_map_fst_diag, option_map_fst_diag]
      exact ih (n + 1) (m + 1)

theorem process_faces_fst_skip (gv : List Vec3) (gp : List PlaneEquation)
    (gvw gtw : List ℚ) (d : ℕ × ℕ → Option ℚ) (t : FaceEntry)
    (ht : t.1.length ≠ 4) :
    ∀ (pre : List FaceEntry) (post : List FaceEntry) (n : ℕ),
    Option.map Prod.fst (process_faces gv gp gvw gtw d n (pre ++ t :: post))
      = Option.map Prod.fst (process_faces gv gp gvw gtw d n (pre ++ post)) := by
  intro pre
  induction pre with
  | nil =>
    intro post n
    simp only [List.nil_append, process_faces]
    rw [if_neg ht, option_map_fst_diag]
    exact process_faces_fst_index gv gp gvw gtw d post (n + 1) n
  | cons e pre ih =>
    intro post n
    simp only [List.cons_append, process_faces]
    split
    · split
      · split
        · exact option_map_fst_cons _ _ _ (ih post (n + 1))
        · rfl
      · rfl
    · rw [option_map_fst_diag, option_map_fst_diag]
      exact ih post (n + 1)

theorem process_faces_length (gv : List Vec3) (gp : List PlaneEquation)
    (gvw gtw : List ℚ) (d : ℕ × ℕ → Option ℚ) :
    ∀ (faces : List FaceEntry) (n : ℕ) (ps : List SurfacePatch) (ds : List ℕ),
    process_faces gv gp gvw gtw d n faces = some (ps, ds) →
    ps.length = (faces.filter (fun e => e.1.length == 4)).length := by
  intro faces
  induction faces with
  | nil =>
    intro n ps ds h
    injection h with h
    simp only [Prod.mk.injEq] at h
    obtain ⟨hps, hds⟩ := h
    subst hps
    rfl
  | cons e rest ih =>
    intro n ps ds h
    simp only [process_faces] at h
    split at h
    next he =>
      split at h
      next vs pls vws tws hfd =>
        split at h
        next patch hms =>
          cases hrec : process_faces gv gp gvw gtw d (n + 1) rest with
          | none => rw [hrec] at h; exact Option.noConfusion h
          | some r =>
            rw [hrec] at h
            injection h with h
            simp only [Prod.mk.injEq] at h
            obtain ⟨hps, hds⟩ := h
            subst hps
            rw [List.filter_cons_of_pos (by simp [he])]
            simp only [List.length_cons]
            rw [ih (n + 1) r.1 r.2 (by rw [hrec])]
        next hms => exact Option.noConfusion h
      next hfd => exact Option.noConfusion h
    next he =>
      cases hrec : process_faces gv gp gvw gtw d (n + 1) rest with
      | none => rw [hrec] at h; exact Option.noConfusion h
      | some r =>
        rw [hrec] at h
        injection h with h
        simp only [Prod.mk.injEq] at h
        obtain ⟨hps, hds⟩ := h
        subst hps
        rw [List.filter_cons_of_neg (by simp [he])]
        exact ih (n + 1) r.1 r.2 (by rw [hrec])

theorem process_faces_diag (gv : List Vec3) (gp : List PlaneEquation)
    (gvw gtw : List ℚ) (d : ℕ × ℕ → Option ℚ) (t : FaceEntry)
    (ht : t.1.length ≠ 4) :
    ∀ (pre : List FaceEntry) (post : List FaceEntry) (n : ℕ)
      (ps : List SurfacePatch) (ds : List ℕ),
    process_faces gv gp gvw gtw d n (pre ++ t :: post) = some (ps, ds) →
    (n + pre.length) ∈ ds := by
  intro pre
  induction pre with
  | nil =>
    intro post n ps ds h
    simp only [List.nil_append, process_faces] at h
    rw [if_neg ht] at h
    cases hrec : process_faces gv gp gvw gtw d (n + 1) post with
    | none => rw [hrec] at h; exact Option.noConfusion h
    | some r =>
      rw [hrec] at h
      injection h with h
      simp only [Prod.mk.injEq] at h
      obtain ⟨hps, hds⟩ := h
      subst hds
      simp
  | cons e pre ih =>
    intro post n ps ds h
    simp only [List.cons_append, List.append_eq, process_faces] at h
    split at h
    next he =>
      split at h
      next vs pls vws tws hfd =>
        split at h
        next patch hms =>
          cases hrec : process_faces gv gp gvw gtw d (n + 1) (pre ++ t :: post) with
          | none => rw [hrec] at h; exact Option.noConfusion h
          | some r =>
            rw [hrec] at h
            injection h with h
            simp only [Prod.mk.injEq] at h
            obtain ⟨hps, hds⟩ := h
            subst hds
            have hmem := ih post (n + 1) r.1 r.2 (by rw [hrec])
            have heq : n + (e :: pre).length = (n + 1) + pre.length := by
              simp only [List.length_cons]
              omega
            exact heq ▸ hmem
        next hms => exact Option.noConfusion h
      next hfd => exact Option.noConfusion h
    next he =>
      cases hrec : process_faces gv gp gvw gtw d (n + 1) (pre ++ t :: post) with
      | none => rw [hrec] at h; exact Option.noConfusion h
      | some r =>
        rw [hrec] at h
        injection h with h
        simp only [Prod.mk.injEq] at h
        obtain ⟨hps, hds⟩ := h
        subst hds
        have hmem := ih post (n + 1) r.1 r.2 (by rw [hrec])
        have heq : n + (e :: pre).length = (n + 1) + pre.length := by
          simp only [List.length_cons]
          omega
        exact List.mem_cons_of_mem _ (heq ▸ hmem)

/-- Claim C8: a face whose vertex count is not 4 is skipped with a
diagnostic (its running index is recorded) and processing continues: the
patch outputs are exactly those the remaining faces produce on their own
parameter tuples, the batch holds exactly one patch per quad face, and
the skipped face contributes no output entry. -/
theorem process_faces_skip_nonquad (gv : List Vec3) (gp : List PlaneEquation)
    (gvw gtw : List ℚ) (d : ℕ × ℕ → Option ℚ) (n : ℕ)
    (pre post : List FaceEntry) (t : FaceEntry) (ht : t.1.length ≠ 4) :
    Option.map Prod.fst (process_faces gv gp gvw gtw d n (pre ++ t :: post))
      = Option.map Prod.fst (process_faces gv gp gvw gtw d n (pre ++ post)) ∧
    (∀ (ps : List SurfacePatch) (ds : List ℕ),
       process_faces gv gp gvw gtw d n (pre ++ t :: post) = some (ps, ds) →
       (n + pre.length) ∈ ds) ∧
    (∀ (faces : List FaceEntry) (ps : List SurfacePatch) (ds : List ℕ),
       process_faces gv gp gvw gtw d n faces = some (ps, ds) →
       ps.length = (faces.filter (fun e => e.1.length == 4)).length) :=
  ⟨process_faces_fst_skip gv gp gvw gtw d t ht pre post n,
   process_faces_diag gv gp gvw gtw d t ht pre post n,
   fun faces => process_faces_length gv gp gvw gtw d faces n⟩

/-- Global per-vertex arrays of the batch scenario. -/
def batch_vertices : List Vec3 := [⟨0, 0, 0⟩, ⟨1, 0, 0⟩, ⟨1, 1, 0⟩, ⟨0, 1, 0⟩]

def batch_planes : List PlaneEquation :=
  [PlaneEquation.from_normal_and_point ⟨0, 0, 1⟩ ⟨0, 0, 0⟩,
   PlaneEquation.from_normal_and_point ⟨0, 0, 1⟩ ⟨1, 0, 0⟩,
   PlaneEquation.from_normal_and_point ⟨0, 0, 1⟩ ⟨1, 1, 0⟩,
   PlaneEquation.from_normal_and_point ⟨0, 0, 1⟩ ⟨0, 1, 0⟩]

def batch_weights : List ℚ := [1, 1, 1, 1]

/-- Triangle entry of the batch scenario (3 vertices, degrees 3, weight 1). -/
def batch_tri : FaceEntry := ([0, 1, 2], 3, 3, 1)

/-- Quad entry of the batch scenario. -/
def batch_quad : FaceEntry := ([0, 1, 2, 3], 3, 3, 1)

theorem process_faces_skip_nonquad_witness :
    (batch_tri.1.length ≠ 4) ∧
    (Option.map Prod.fst (process_faces batch_vertices batch_planes batch_weights
        batch_weights unit_dict 0 ([] ++ batch_tri :: [batch_quad]))
      = Option.map Prod.fst (process_faces batch_vertices batch_planes batch_weights
        batch_weights unit_dict 0 ([] ++ [batch_quad])) ∧
    (∀ (ps : List SurfacePatch) (ds : List ℕ),
       process_faces batch_vertices batch_planes batch_weights batch_weights
         unit_dict 0 ([] ++ batch_tri :: [batch_quad]) = some (ps, ds) →
       (0 + List.length ([] : List FaceEntry)) ∈ ds) ∧
    (∀ (faces : List FaceEntry) (ps : List SurfacePatch) (ds : List ℕ),
       process_faces batch_vertices batch_planes batch_weights batch_weights
         unit_dict 0 faces = some (ps, ds) →
       ps.length = (faces.filter (fun e => e.1.length == 4)).length)) :=
  ⟨by decide,
   process_faces_skip_nonquad batch_vertices batch_planes batch_weights batch_weights
     unit_dict 0 [] [batch_quad] batch_tri (by decide)⟩

end QuadsToNurbs
